/-
Verification of the crime_management analytics pipeline
(crime_analytics_project: data_preprocessor.py, model_trainer.py, main.py).

The Python source is shallowly embedded: pandas tables become lists of
records, float columns become rationals (ℚ), NaN-able columns become
`Option ℚ`, and each preprocessing / training step becomes a pure Lean
function mirroring the source line by line.
-/
import Mathlib

namespace CrimeAnalytics

/-! ## Generic list helpers (embedding pandas/numpy primitives) -/

/-- Maximum of a list of rationals, 0 on the empty list
(stand-in for `np.max`/pandas `.max()`; the empty case never matters
below). -/
def listMax : List ℚ → ℚ
  | [] => 0
  | [x] => x
  | x :: y :: ys => max x (listMax (y :: ys))

/-- Embedding of `np.argmax`: index of the first occurrence of the maximum. -/
def argmaxIdx (l : List ℚ) : ℕ := l.indexOf (listMax l)

/-- Mean of a list of rationals, `none` on the empty list
(pandas `.mean()` of an all-NaN column is NaN). -/
def listMean (l : List ℚ) : Option ℚ :=
  match l with
  | [] => none
  | _ => some (l.sum / (l.length : ℚ))

/-- Insert into a sorted list of rationals (ascending). -/
def insertSorted (x : ℚ) : List ℚ → List ℚ
  | [] => [x]
  | y :: ys => if x ≤ y then x :: y :: ys else y :: insertSorted x ys

/-- Insertion sort on rationals, ascending. -/
def sortQ : List ℚ → List ℚ
  | [] => []
  | x :: xs => insertSorted x (sortQ xs)

/-- Median as pandas computes it: middle element for odd length, average of
the two middle elements for even length; `none` on the empty list. -/
def listMedian (l : List ℚ) : Option ℚ :=
  let s := sortQ l
  let n := s.length
  if n = 0 then none
  else if n % 2 = 1 then some (s.getD (n / 2) 0)
  else some ((s.getD (n / 2 - 1) 0 + s.getD (n / 2) 0) / 2)

/-- Embedding of numpy/pandas `.round()` to integer: round half to even
(banker's rounding), as used for the grid coordinates. -/
def roundHalfEven (q : ℚ) : ℤ :=
  let f : ℤ := ⌊q⌋
  let frac : ℚ := q - (f : ℚ)
  if frac < 1/2 then f
  else if 1/2 < frac then f + 1
  else if f % 2 = 0 then f else f + 1

/-- Computable stand-in for `np.sqrt` on the embedded rationals
(the float computation is approximate either way; no claim depends on the
value beyond non-negativity and determinism). -/
def sqrtQ (q : ℚ) : ℚ := (Int.sqrt q.num : ℚ) / (Nat.sqrt q.den : ℚ)

/-! ## Data model

A raw crime record as produced by `load_data` (the SQL join): the columns
used by `clean_data` and `engineer_features`. The incident datetime is
modelled by its calendar components, which is all the feature code reads. -/

/-- Calendar components of `incident_datetime` (what `df.dt.*` extracts). -/
structure DateTimeParts where
  hour : ℕ
  dayOfWeek : ℕ
  dayOfMonth : ℕ
  month : ℕ
  year : ℕ
deriving Repr, DecidableEq

/-- One row of the joined crimes table. Nullable numeric columns are
`Option ℚ`; categorical columns are strings. -/
structure CrimeRecord where
  case_id : ℤ
  dt : DateTimeParts
  latitude : Option ℚ
  longitude : Option ℚ
  district : String
  crime_type_code : String
  severity_level : String
  complainant_age : Option ℚ
  priority : String
  status : String
deriving Repr, DecidableEq

/-! ## clean_data (data_preprocessor.py lines 65–89) -/

/-- Embedding of `df.drop_duplicates(subset=[case_id])`: keep the first
record for each case identifier. -/
def dropDuplicateCases (seen : List ℤ) : List CrimeRecord → List CrimeRecord
  | [] => []
  | r :: rs =>
      if r.case_id ∈ seen then dropDuplicateCases seen rs
      else r :: dropDuplicateCases (r.case_id :: seen) rs

/-- Fill a nullable column value with a default when missing
(`fillna`); when the default itself is missing (all-NaN column) the value
stays missing. -/
def fillnaWith (dflt : Option ℚ) (v : Option ℚ) : Option ℚ :=
  match v with
  | some x => some x
  | none => dflt

/-- Coordinate validity window test, boundaries inclusive
(`between(12.5, 13.5)` and `between(79.8, 80.8)`); a still-missing
coordinate compares as NaN in pandas and fails the test. The boundary
literals 12.5, 13.5, 79.8, 80.8 are written with `mkRat`. -/
def validCoords (r : CrimeRecord) : Bool :=
  match r.latitude, r.longitude with
  | some la, some lo =>
      decide (mkRat 125 10 ≤ la) && decide (la ≤ mkRat 135 10) &&
      decide (mkRat 798 10 ≤ lo) && decide (lo ≤ mkRat 808 10)
  | _, _ => false

/-- Embedding of `clean_data`: drop duplicate case ids keeping the first,
impute missing latitude/longitude with the column mean and missing age with
the column median, then keep only rows inside the coordinate window. -/
def clean_data (rows : List CrimeRecord) : List CrimeRecord :=
  let dedup := dropDuplicateCases [] rows
  let latMean := listMean (dedup.filterMap (·.latitude))
  let lonMean := listMean (dedup.filterMap (·.longitude))
  let ageMed := listMedian (dedup.filterMap (·.complainant_age))
  let imputed := dedup.map (fun r =>
    { r with
      latitude := fillnaWith latMean r.latitude
      longitude := fillnaWith lonMean r.longitude
      complainant_age := fillnaWith ageMed r.complainant_age })
  imputed.filter validCoords

/-! ## engineer_features (data_preprocessor.py lines 91–188) -/

/-- Quarter derived from the month (`dt.quarter`). -/
def quarterOf (month : ℕ) : ℕ := (month + 2) / 3

/-- Weekend flag: `(day_of_week >= 5).astype(int)`. -/
def is_weekend (dayOfWeek : ℕ) : ℕ := if 5 ≤ dayOfWeek then 1 else 0

/-- Night flag: `((hour >= 20) | (hour <= 6)).astype(int)`. -/
def is_night (hour : ℕ) : ℕ := if 20 ≤ hour ∨ hour ≤ 6 then 1 else 0

/-- Embedding of `categorize_time`. -/
def categorize_time (hour : ℕ) : String :=
  if 6 ≤ hour ∧ hour < 12 then "Morning"
  else if 12 ≤ hour ∧ hour < 18 then "Afternoon"
  else if 18 ≤ hour ∧ hour < 22 then "Evening"
  else "Night"

/-- Euclidean distance from the city center `(13.0827, 80.2707)`. -/
def dist_from_center (lat lon : ℚ) : ℚ :=
  sqrtQ ((lat - 13.0827) ^ 2 + (lon - 80.2707) ^ 2)

/-- Integer grid coordinate: coordinate scaled by 100 and rounded. -/
def gridCoord (c : ℚ) : ℤ := roundHalfEven (c * 100)

/-- Grid-cell identifier:
`df[lat_grid].astype(str) + '_' + df[lon_grid].astype(str)`. -/
def grid_cell (lat lon : ℚ) : String :=
  toString (gridCoord lat) ++ "_" ++ toString (gridCoord lon)

/-- Severity ordinal map (`severity_map`); unmapped values are missing. -/
def severity_map (s : String) : Option ℚ :=
  if s = "Minor" then some 1
  else if s = "Moderate" then some 2
  else if s = "Serious" then some 3
  else if s = "Critical" then some 4
  else none

/-- Priority ordinal map (`priority_map`); unmapped values are missing. -/
def priority_map (s : String) : Option ℚ :=
  if s = "Low" then some 1
  else if s = "Medium" then some 2
  else if s = "High" then some 3
  else if s = "Critical" then some 4
  else none

/-- Status ordinal map (`status_map`); unmapped values are missing. -/
def status_map (s : String) : Option ℚ :=
  if s = "Reported" then some 1
  else if s = "Assigned" then some 2
  else if s = "Under Investigation" then some 3
  else if s = "Pending" then some 4
  else if s = "Closed" then some 5
  else if s = "Cold Case" then some 6
  else none

/-- Age bucketing, `pd.cut(age, bins=[0,25,40,60,100], right=True)`:
intervals are left-open right-closed, values outside (0,100] get no bucket. -/
def age_group (a : ℚ) : Option String :=
  if a ≤ 0 then none
  else if a ≤ 25 then some "Young"
  else if a ≤ 40 then some "Adult"
  else if a ≤ 60 then some "Middle-aged"
  else if a ≤ 100 then some "Senior"
  else none

/-- Crime density score: `grid_crime_count / (dist_from_center + 0.1)`. -/
def crime_density_score (gridCount dist : ℚ) : ℚ := gridCount / (dist + 0.1)

/-- Composite risk score (data_preprocessor.py lines 180–184):
`severity_score*0.4 + crime_density_score*0.3 +
 grid_crime_count / grid_crime_count.max() * 30 * 0.3`. -/
def risk_score (sev dens gridCount maxGridCount : ℚ) : ℚ :=
  sev * 0.4 + dens * 0.3 + gridCount / maxGridCount * 30 * 0.3

/-- String comparison used to embed `np.unique` sorting. -/
def strLe (a b : String) : Bool := !(decide (b < a))

/-- Insert into a lexicographically sorted list of strings. -/
def insertSortedStr (x : String) : List String → List String
  | [] => [x]
  | y :: ys => if strLe x y then x :: y :: ys else y :: insertSortedStr x ys

/-- Insertion sort on strings. -/
def sortStr : List String → List String
  | [] => []
  | x :: xs => insertSortedStr x (sortStr xs)

/-- Embedding of `LabelEncoder.fit`: the sorted list of distinct values
(`np.unique` of the column). -/
def encoderClasses (col : List String) : List String := sortStr col.dedup

/-- Embedding of `LabelEncoder.transform` of one value: its index among the
sorted distinct values. -/
def encodeLabel (col : List String) (v : String) : ℕ :=
  (encoderClasses col).indexOf v

/-- One row of the featured table: the cleaned record plus every derived
column of `engineer_features`. -/
structure FeaturedRecord where
  base : CrimeRecord
  hour : ℕ
  day_of_week : ℕ
  day_of_month : ℕ
  month : ℕ
  year : ℕ
  quarter : ℕ
  isWeekend : ℕ
  isNight : ℕ
  timePeriod : String
  distFromCenter : ℚ
  lat_grid : ℤ
  lon_grid : ℤ
  gridCell : String
  grid_crime_count : ℚ
  district_crime_count : ℚ
  crimeDensity : ℚ
  hour_crime_rate : ℚ
  district_encoded : ℕ
  time_period_encoded : ℕ
  crime_type_code_encoded : ℕ
  severity_score : Option ℚ
  priority_score : Option ℚ
  status_encoded : Option ℚ
  ageGroup : Option String
  riskScore : Option ℚ
deriving Repr, DecidableEq

/-- Latitude of a cleaned record; `clean_data` guarantees presence, the
default is never reached on its output. -/
def latOf (r : CrimeRecord) : ℚ := r.latitude.getD 0

/-- Longitude of a cleaned record (same remark as `latOf`). -/
def lonOf (r : CrimeRecord) : ℚ := r.longitude.getD 0

/-- Embedding of `engineer_features` on the cleaned table: every derived
column of data_preprocessor.py lines 91–188, with the table-level
statistics (per-grid and per-district counts, per-(day,hour) counts, label
encoder classes, maximum grid count) computed over the same table. -/
def engineer_features (rows : List CrimeRecord) : List FeaturedRecord :=
  let gridOf := fun (r : CrimeRecord) => grid_cell (latOf r) (lonOf r)
  let gridCountOf := fun (r : CrimeRecord) =>
    ((rows.countP (fun s => gridOf s == gridOf r) : ℕ) : ℚ)
  let districtCountOf := fun (r : CrimeRecord) =>
    ((rows.countP (fun s => s.district == r.district) : ℕ) : ℚ)
  let hourRateOf := fun (r : CrimeRecord) =>
    ((rows.countP (fun s =>
      s.dt.dayOfWeek == r.dt.dayOfWeek && s.dt.hour == r.dt.hour) : ℕ) : ℚ)
  let districtCol := rows.map (·.district)
  let timePeriodCol := rows.map (fun r => categorize_time r.dt.hour)
  let crimeTypeCol := rows.map (·.crime_type_code)
  let maxGridCount := listMax (rows.map gridCountOf)
  rows.map (fun r =>
    let dist := dist_from_center (latOf r) (lonOf r)
    let gcount := gridCountOf r
    let dens := crime_density_score gcount dist
    let sev := severity_map r.severity_level
    { base := r
      hour := r.dt.hour
      day_of_week := r.dt.dayOfWeek
      day_of_month := r.dt.dayOfMonth
      month := r.dt.month
      year := r.dt.year
      quarter := quarterOf r.dt.month
      isWeekend := is_weekend r.dt.dayOfWeek
      isNight := is_night r.dt.hour
      timePeriod := categorize_time r.dt.hour
      distFromCenter := dist
      lat_grid := gridCoord (latOf r)
      lon_grid := gridCoord (lonOf r)
      gridCell := gridOf r
      grid_crime_count := gcount
      district_crime_count := districtCountOf r
      crimeDensity := dens
      hour_crime_rate := hourRateOf r
      district_encoded := encodeLabel districtCol r.district
      time_period_encoded := encodeLabel timePeriodCol (categorize_time r.dt.hour)
      crime_type_code_encoded := encodeLabel crimeTypeCol r.crime_type_code
      severity_score := sev
      priority_score := priority_map r.priority
      status_encoded := status_map r.status
      ageGroup := (r.complainant_age.bind (fun a => age_group a))
      riskScore := sev.map (fun s => risk_score s dens gcount maxGridCount) })

/-! ## prepare_ml_features (data_preprocessor.py lines 222–255) -/

/-- The literal `feature_cols` list selected by `prepare_ml_features` and
returned alongside the scaled matrix. -/
def prepare_ml_feature_cols : List String :=
  ["latitude", "longitude", "hour", "day_of_week", "month",
   "is_weekend", "is_night", "dist_from_center",
   "grid_crime_count", "district_crime_count", "crime_density_score",
   "hour_crime_rate", "severity_score", "priority_score",
   "complainant_age", "district_encoded",
   "time_period_encoded", "crime_type_code_encoded"]

/-- Columns appended to the scaled matrix after scaling
(`case_id` and the three targets), so the ML table has these plus the
feature columns. -/
def ml_target_cols : List String :=
  ["case_id", "target_severity", "target_crime_type", "target_risk"]

/-- Columns of the ML table `df_ml` written by `prepare_ml_features`. -/
def ml_table_cols : List String := prepare_ml_feature_cols ++ ml_target_cols

/-- The `target_severity` column of the ML table: copied from the raw
`severity_score` column (`df['severity_score'].values`), so an unmapped
severity level stays missing in the target (only the feature copy of the
column is median-imputed). -/
def target_severity_col (rows : List FeaturedRecord) : List (Option ℚ) :=
  rows.map (fun r => r.severity_score)

/-! ## model_trainer.py -/

/-- The `leak_cols` exclusion list repeated in
`train_crime_prediction_model`, `train_severity_prediction_model` and
`train_anomaly_detection_model`. -/
def leak_cols : List String :=
  ["case_id", "target_severity", "target_crime_type", "target_risk",
   "crime_type_code_encoded", "severity_score", "priority_score"]

/-- Feature columns computed inside each trainer:
`[col for col in df_ml.columns if col not in leak_cols]`. -/
def trainer_feature_cols (cols : List String) : List String :=
  cols.filter (fun c => !(leak_cols.contains c))

/-- Targets used by `train_severity_prediction_model`:
`y = df_ml['target_severity']` — the entire column, no row with a missing
target is filtered out before fitting. -/
def severity_fit_targets (targets : List (Option ℚ)) : List (Option ℚ) :=
  targets

/-! ### train_hotspot_clustering_model (model_trainer.py lines 163–239)

The sweep is embedded parametrically in the fit outcome: `sil k` is
`some s` when the fit at `k` produced at least two distinct labels with
silhouette score `s`, and `none` when the silhouette computation was
skipped (`len(set(labels)) <= 1`). -/

/-- Upper end of the k sweep: `max_k = min(10, n_samples - 1)`, forced up
to 2 when that is 2 or less. -/
def max_k (n : ℕ) : ℕ :=
  if min 10 (n - 1) ≤ 2 then 2 else min 10 (n - 1)

/-- The sweep `k_range = range(2, max_k + 1)` in ascending order. -/
def k_range (n : ℕ) : List ℕ := List.range' 2 (max_k n - 1)

/-- The `silhouette_scores` list accumulated over the sweep: scores of the
non-skipped fits, in sweep order (skipped fits append nothing). -/
def silhouette_list (n : ℕ) (sil : ℕ → Option ℚ) : List ℚ :=
  (k_range n).filterMap sil

/-- The selected cluster count:
`optimal_k = k_range[np.argmax(silhouette_scores)]` — note the index is a
position in the compacted `silhouette_scores` list but is applied to the
full `k_range` list. -/
def optimal_k (n : ℕ) (sil : ℕ → Option ℚ) : ℕ :=
  (k_range n).getD (argmaxIdx (silhouette_list n sil)) 0

/-- Silhouette outcome recorded at the selected k. -/
def selected_sil (n : ℕ) (sil : ℕ → Option ℚ) : Option ℚ :=
  sil (optimal_k n sil)

/-! ### Training-step failure semantics (main.py lines 103–118,
model_trainer.py `__main__`)

The six fits run sequentially inside one `try` block; each fit that
completes registers its model in `self.models` before the next starts.
A fit is modelled by its name and outcome (`some result`, or `none` when
it raises). -/

/-- Contents of the trainer's `models` dict after the training step: every
fit before the first raising fit has registered; the exception propagates
out of the `try` block, so no later fit runs. -/
def models_after_training {α : Type} : List (String × Option α) → List (String × α)
  | [] => []
  | (n, some r) :: rest => (n, r) :: models_after_training rest
  | (_, none) :: _ => []

/-- Outcome of the whole training step in `run_pipeline`: `some` of all
results when every fit succeeds, `none` when any fit raises (the exception
is caught at step level, the step prints an error and `run_pipeline`
returns `False`; nothing is saved). -/
def training_step {α : Type} : List (String × Option α) → Option (List (String × α))
  | [] => some []
  | (n, some r) :: rest => (training_step rest).map (fun l => (n, r) :: l)
  | (_, none) :: _ => none

/-- Modelled from the spec: the independent-fit semantics the failure
section describes ("a failure in one must not abort the others; the
Trainer reports partial results and marks the failed model absent") —
every fit runs and exactly the successful ones are reported. The repository
code has no implementation of this; it is embedded here only to compare
with `models_after_training`/`training_step`. -/
def independent_fit_results {α : Type} (fits : List (String × Option α)) :
    List (String × α) :=
  fits.filterMap (fun f => f.2.map (fun r => (f.1, r)))

/-! ## Concrete instances used by witnesses and counterexamples -/

/-- A record inside the service-area window, sitting exactly on the
lower latitude and upper longitude boundaries. -/
def recBoundary : CrimeRecord :=
  { case_id := 1
    dt := { hour := 10, dayOfWeek := 1, dayOfMonth := 15, month := 3, year := 2024 }
    latitude := some (mkRat 125 10)
    longitude := some (mkRat 808 10)
    district := "Central"
    crime_type_code := "THEFT"
    severity_level := "Minor"
    complainant_age := some 30
    priority := "Low"
    status := "Reported" }

/-- A record far outside the service-area window. -/
def recOutside : CrimeRecord :=
  { case_id := 2
    dt := { hour := 23, dayOfWeek := 6, dayOfMonth := 1, month := 7, year := 2024 }
    latitude := some 20
    longitude := some 75
    district := "North"
    crime_type_code := "ASSAULT"
    severity_level := "Serious"
    complainant_age := some 45
    priority := "High"
    status := "Assigned" }

/-- Cleaned record with a mapped severity level. -/
def recMinor : CrimeRecord :=
  { case_id := 3
    dt := { hour := 9, dayOfWeek := 2, dayOfMonth := 4, month := 5, year := 2024 }
    latitude := some 13
    longitude := some 80
    district := "Central"
    crime_type_code := "THEFT"
    severity_level := "Minor"
    complainant_age := some 28
    priority := "Low"
    status := "Reported" }

/-- Cleaned record whose severity level is outside the ordinal map. -/
def recUnknownSeverity : CrimeRecord :=
  { case_id := 4
    dt := { hour := 14, dayOfWeek := 3, dayOfMonth := 6, month := 5, year := 2024 }
    latitude := some 13
    longitude := some 80
    district := "South"
    crime_type_code := "FRAUD"
    severity_level := "Unknown"
    complainant_age := some 52
    priority := "Medium"
    status := "Pending" }

/-- Six fit outcomes where the first fit raises and the other five would
succeed. -/
def sixFitsFirstRaises : List (String × Option ℕ) :=
  [("crime_prediction", none), ("severity_prediction", some 1),
   ("hotspot_clustering", some 2), ("dbscan_clustering", some 3),
   ("anomaly_detection", some 4), ("kernel_density", some 5)]

/-- Sweep outcome on a 5-row grid table where the fit at k = 2 yields a
single distinct label (silhouette skipped) and the fits at k = 3 and k = 4
yield silhouettes 1/2 and 3/10. -/
def silSkipAtTwo : ℕ → Option ℚ :=
  fun k =>
    if k = 3 then some (mkRat 1 2)
    else if k = 4 then some (mkRat 3 10)
    else none

/-! ## Theorems -/

/-- Helper: a severity score produced by the ordinal map is at least 1. -/
theorem severity_map_ge_one (lvl : String) (v : ℚ) (h : severity_map lvl = some v) :
    (1 : ℚ) ≤ v := by
  unfold severity_map at h
  split_ifs at h <;> simp only [Option.some.injEq, reduceCtorEq] at h <;> linarith

/-- C1 counterexample: the feature list returned by `prepare_ml_features`
intersects the forbidden set — it contains `severity_score`,
`priority_score` and `crime_type_code_encoded`, so the set-intersection
with the forbidden columns is not empty. -/
theorem c1_counterexample :
    prepare_ml_feature_cols.filter (fun c => leak_cols.contains c) =
      ["severity_score", "priority_score", "crime_type_code_encoded"] ∧
    prepare_ml_feature_cols.filter (fun c => leak_cols.contains c) ≠ [] := by
  decide

/-- C1 (amended): the feature list returned by `prepare_ml_features`
contains none of the case identifier and the three target columns, and the
full leakage exclusion happens in the trainers — the feature columns each
trainer computes from the ML table (columns not in `leak_cols`) have empty
intersection with the forbidden set. -/
theorem c1_amended :
    prepare_ml_feature_cols.filter (fun c => ml_target_cols.contains c) = [] ∧
    ∀ cols : List String,
      (trainer_feature_cols cols).filter (fun c => leak_cols.contains c) = [] := by
  refine ⟨by decide, ?_⟩
  intro cols
  rw [trainer_feature_cols, List.filter_filter]
  have hfalse : (fun c => leak_cols.contains c && !leak_cols.contains c) =
      fun (_ : String) => false := by
    funext c
    cases leak_cols.contains c <;> rfl
  rw [hfalse]
  exact List.filter_false cols

/-- C1 witness: the trainer's feature selection on the actual ML table
columns has empty intersection with the forbidden set. -/
theorem c1_witness :
    (trainer_feature_cols ml_table_cols).filter (fun c => leak_cols.contains c) = [] :=
  c1_amended.2 ml_table_cols

/-- C2 counterexample: with the first of the six fits raising and the
other five able to succeed, the training step registers no later model
(the five would-be successes are absent), while the independent semantics
claimed by the spec would report all five; the step itself aborts. -/
theorem c2_counterexample :
    models_after_training sixFitsFirstRaises = [] ∧
    independent_fit_results sixFitsFirstRaises =
      [("severity_prediction", 1), ("hotspot_clustering", 2),
       ("dbscan_clustering", 3), ("anomaly_detection", 4),
       ("kernel_density", 5)] ∧
    training_step sixFitsFirstRaises = none := by
  decide

/-- C2 (amended): the six fits are not independent — they run sequentially
inside a single exception scope, so the first fit that raises prevents
every later fit from running: only the models fitted before the failure
are registered, the training step reports failure (`run_pipeline` returns
`False`) and saves nothing; only when every fit succeeds does the step
report results. -/
theorem c2_amended (pre : List (String × ℕ)) (nm : String)
    (post : List (String × Option ℕ)) :
    models_after_training (pre.map (fun p => (p.1, some p.2)) ++ (nm, none) :: post) = pre ∧
    training_step (pre.map (fun p => (p.1, some p.2)) ++ (nm, none) :: post) = none ∧
    training_step (pre.map (fun p => (p.1, some p.2))) = some pre := by
  induction pre with
  | nil => exact ⟨rfl, rfl, rfl⟩
  | cons p ps ih =>
    refine ⟨?_, ?_, ?_⟩
    · simp [models_after_training, ih.1]
    · simp [training_step, ih.2.1]
    · simp [training_step, ih.2.2]

/-- C2 witness: one completed fit, then a raising fit, then a pending
fit — only the completed fit is registered and the step aborts. -/
theorem c2_witness :
    models_after_training
        ([("crime_prediction", (1 : ℕ))].map (fun p => (p.1, some p.2)) ++
          ("severity_prediction", none) :: [("hotspot_clustering", some 2)]) =
      [("crime_prediction", 1)] ∧
    training_step
        ([("crime_prediction", (1 : ℕ))].map (fun p => (p.1, some p.2)) ++
          ("severity_prediction", none) :: [("hotspot_clustering", some 2)]) =
      none ∧
    training_step ([("crime_prediction", (1 : ℕ))].map (fun p => (p.1, some p.2))) =
      some [("crime_prediction", 1)] :=
  c2_amended [("crime_prediction", 1)] "severity_prediction" [("hotspot_clustering", some 2)]

/-- C5: every record output by `clean_data` has its latitude in
[12.5, 13.5] and its longitude in [79.8, 80.8], boundaries inclusive;
rows outside the window are silently dropped by the final filter (the
function is total, no error path exists), which runs after duplicate case
ids are dropped keeping the first and missing coordinates/age are imputed
with the column mean/median. -/
theorem c5_cleaned_coords_in_window (rows : List CrimeRecord) (r : CrimeRecord)
    (hr : r ∈ clean_data rows) :
    ∃ la lo, r.latitude = some la ∧ r.longitude = some lo ∧
      (12.5 : ℚ) ≤ la ∧ la ≤ (13.5 : ℚ) ∧ (79.8 : ℚ) ≤ lo ∧ lo ≤ (80.8 : ℚ) := by
  simp only [clean_data] at hr
  have hf : validCoords r = true := (List.mem_filter.mp hr).2
  have e1 : mkRat 125 10 = (12.5 : ℚ) := by rw [Rat.mkRat_eq_div]; norm_num
  have e2 : mkRat 135 10 = (13.5 : ℚ) := by rw [Rat.mkRat_eq_div]; norm_num
  have e3 : mkRat 798 10 = (79.8 : ℚ) := by rw [Rat.mkRat_eq_div]; norm_num
  have e4 : mkRat 808 10 = (80.8 : ℚ) := by rw [Rat.mkRat_eq_div]; norm_num
  cases hla : r.latitude with
  | none => simp [validCoords, hla] at hf
  | some la =>
    cases hlo : r.longitude with
    | none => simp [validCoords, hla, hlo] at hf
    | some lo =>
      simp only [validCoords, hla, hlo, Bool.and_eq_true, decide_eq_true_eq] at hf
      refine ⟨la, lo, rfl, rfl, ?_, ?_, ?_, ?_⟩
      · rw [← e1]; exact hf.1.1.1
      · rw [← e2]; exact hf.1.1.2
      · rw [← e3]; exact hf.1.2
      · rw [← e4]; exact hf.2

/-- C5 witness: a record sitting exactly on the boundaries (latitude 12.5,
longitude 80.8) survives `clean_data` and satisfies the window bounds. -/
theorem c5_witness :
    ∃ la lo, recBoundary.latitude = some la ∧ recBoundary.longitude = some lo ∧
      (12.5 : ℚ) ≤ la ∧ la ≤ (13.5 : ℚ) ∧ (79.8 : ℚ) ≤ lo ∧ lo ≤ (80.8 : ℚ) :=
  c5_cleaned_coords_in_window [recBoundary, recOutside] recBoundary (by decide)

/-- C6: for a defined severity score (one produced by the ordinal map),
the composite risk score is non-negative whenever the density term, the
grid count and its table maximum are non-negative; and holding the density
term and the grid-count terms fixed, the risk score is monotonically
non-decreasing in the severity score. -/
theorem c6_risk_nonneg_monotone (lvl : String) (sev dens gridCount maxG : ℚ)
    (hsev : severity_map lvl = some sev) (hdens : 0 ≤ dens)
    (hg : 0 ≤ gridCount) (hmax : 0 ≤ maxG) :
    0 ≤ risk_score sev dens gridCount maxG ∧
    ∀ sev2, sev ≤ sev2 →
      risk_score sev dens gridCount maxG ≤ risk_score sev2 dens gridCount maxG := by
  have h1 : (1 : ℚ) ≤ sev := severity_map_ge_one lvl sev hsev
  have hdiv : 0 ≤ gridCount / maxG := div_nonneg hg hmax
  constructor
  · unfold risk_score
    nlinarith [hdiv, hdens, h1]
  · intro s2 hs
    unfold risk_score
    nlinarith [hs]

/-- C6 witness: severity "Minor" (score 1), zero density, grid count 1 of
maximum 1 — the risk score is non-negative and does not decrease when the
severity score rises to 2. -/
theorem c6_witness :
    0 ≤ risk_score 1 0 1 1 ∧ risk_score 1 0 1 1 ≤ risk_score 2 0 1 1 := by
  have h := c6_risk_nonneg_monotone "Minor" 1 0 1 1 (by decide) (by norm_num)
    (by norm_num) (by norm_num)
  exact ⟨h.1, h.2 2 (by norm_num)⟩

/-- C7: the grid-cell identifier is a pure deterministic function of
(latitude, longitude) — records with identical coordinates always get the
identical identifier, and the identifier is exactly the two coordinates
scaled by 100 and rounded to integers, concatenated. -/
theorem c7_grid_cell_deterministic (la1 lo1 la2 lo2 : ℚ)
    (hla : la1 = la2) (hlo : lo1 = lo2) :
    grid_cell la1 lo1 = grid_cell la2 lo2 ∧
    grid_cell la1 lo1 =
      toString (roundHalfEven (la1 * 100)) ++ "_" ++ toString (roundHalfEven (lo1 * 100)) := by
  subst hla
  subst hlo
  exact ⟨rfl, rfl⟩

/-- C7 witness: the city-center coordinates, given twice, produce the same
grid identifier, built from the rounded scaled coordinates. -/
theorem c7_witness :
    grid_cell 13.0827 80.2707 = grid_cell 13.0827 80.2707 ∧
    grid_cell 13.0827 80.2707 =
      toString (roundHalfEven ((13.0827 : ℚ) * 100)) ++ "_" ++
        toString (roundHalfEven ((80.2707 : ℚ) * 100)) :=
  c7_grid_cell_deterministic 13.0827 80.2707 13.0827 80.2707 rfl rfl

/-- C8: `engineer_features` is deterministic at table level — it is a pure
function of the cleaned input table, so two runs on the same input produce
identical featured tables in every derived column. -/
theorem c8_engineer_features_deterministic (rows1 rows2 : List CrimeRecord)
    (h : rows1 = rows2) : engineer_features rows1 = engineer_features rows2 := by
  rw [h]

/-- C8 witness: two runs on the same one-row cleaned table agree. -/
theorem c8_witness : engineer_features [recMinor] = engineer_features [recMinor] :=
  c8_engineer_features_deterministic [recMinor] [recMinor] rfl

/-- C9: the night flag and the Night time-period bucket do not coincide —
hours 20 and 21 are flagged as night yet bucketed Evening, and hour 6 is
flagged as night yet bucketed Morning. -/
theorem c9_night_flag_vs_period (h : ℕ) :
    ((h = 20 ∨ h = 21) → is_night h = 1 ∧ categorize_time h = "Evening") ∧
    (h = 6 → is_night h = 1 ∧ categorize_time h = "Morning") := by
  constructor
  · rintro (rfl | rfl) <;> exact ⟨by decide, by decide⟩
  · rintro rfl
    exact ⟨by decide, by decide⟩

/-- C9 witness: hour 20 is night-flagged Evening; hour 6 is night-flagged
Morning. -/
theorem c9_witness :
    (is_night 20 = 1 ∧ categorize_time 20 = "Evening") ∧
    (is_night 6 = 1 ∧ categorize_time 6 = "Morning") :=
  ⟨(c9_night_flag_vs_period 20).1 (Or.inl rfl), (c9_night_flag_vs_period 6).2 rfl⟩

/-- C10: the age bucket is partial at the edges — ages at most 0 or above
100 get no bucket — and the bucket boundaries are right-inclusive: 25 maps
to Young, 26 and 40 to Adult, 60 to Middle-aged, 100 to Senior. -/
theorem c10_age_group_edges :
    (∀ a : ℚ, a ≤ 0 → age_group a = none) ∧
    (∀ a : ℚ, 100 < a → age_group a = none) ∧
    age_group 25 = some "Young" ∧ age_group 26 = some "Adult" ∧
    age_group 40 = some "Adult" ∧ age_group 60 = some "Middle-aged" ∧
    age_group 100 = some "Senior" := by
  refine ⟨?_, ?_, by decide, by decide, by decide, by decide, by decide⟩
  · intro a ha
    unfold age_group
    rw [if_pos ha]
  · intro a ha
    unfold age_group
    split_ifs <;> first | rfl | linarith

/-- C10 witness: age 0 and age 101 get no bucket. -/
theorem c10_witness : age_group 0 = none ∧ age_group 101 = none :=
  ⟨c10_age_group_edges.1 0 le_rfl, c10_age_group_edges.2.1 101 (by norm_num)⟩

/-! ### Helper lemmas for the k-sweep selection (C3) -/

/-- The maximum of a non-empty list is one of its elements. -/
theorem listMax_mem : ∀ (l : List ℚ), l ≠ [] → listMax l ∈ l
  | [], h => absurd rfl h
  | [x], _ => by
      show x ∈ [x]
      exact List.mem_singleton_self x
  | x :: y :: ys, _ => by
      have ih := listMax_mem (y :: ys) (by simp)
      show max x (listMax (y :: ys)) ∈ x :: y :: ys
      rcases le_total x (listMax (y :: ys)) with h | h
      · rw [max_eq_right h]
        exact List.mem_cons_of_mem _ ih
      · rw [max_eq_left h]
        exact List.mem_cons_self _ _

/-- Every element of a list is bounded by its maximum. -/
theorem le_listMax : ∀ (l : List ℚ) (x : ℚ), x ∈ l → x ≤ listMax l
  | [], x, h => absurd h (List.not_mem_nil x)
  | [y], x, h => by
      rcases List.mem_singleton.mp h with rfl
      show x ≤ x
      exact le_refl x
  | y :: z :: zs, x, h => by
      show x ≤ max y (listMax (z :: zs))
      rcases List.mem_cons.mp h with rfl | h2
      · exact le_max_left _ _
      · exact le_trans (le_listMax (z :: zs) x h2) (le_max_right _ _)

/-- Specification of `List.indexOf` through `getD`: for a member, the
index is in range, reads back the element, and every strictly earlier
position holds a different element. -/
theorem indexOf_getD_spec : ∀ (l : List ℚ) (a : ℚ), a ∈ l →
    l.indexOf a < l.length ∧ l.getD (l.indexOf a) 0 = a ∧
      ∀ j, j < l.indexOf a → l.getD j 0 ≠ a
  | [], a, h => absurd h (List.not_mem_nil a)
  | x :: xs, a, h => by
      by_cases hx : x = a
      · subst hx
        rw [List.indexOf_cons_self]
        exact ⟨Nat.succ_pos _, rfl, fun j hj => absurd hj (Nat.not_lt_zero j)⟩
      · have hmem : a ∈ xs := by
          rcases List.mem_cons.mp h with rfl | h2
          · exact absurd rfl hx
          · exact h2
        have ih := indexOf_getD_spec xs a hmem
        rw [List.indexOf_cons_ne _ hx]
        refine ⟨Nat.succ_lt_succ ih.1, ?_, ?_⟩
        · simp only [List.getD_cons_succ]
          exact ih.2.1
        · intro j hj
          cases j with
          | zero =>
            simp only [List.getD_cons_zero]
            exact hx
          | succ j2 =>
            simp only [List.getD_cons_succ]
            exact ih.2.2 j2 (Nat.lt_of_succ_lt_succ hj)

/-- When every entry of the sweep yields a silhouette, the compacted
score list is just the mapped list of scores. -/
theorem filterMap_eq_map_getD : ∀ (l : List ℕ) (f : ℕ → Option ℚ),
    (∀ k, k ∈ l → (f k).isSome = true) →
    l.filterMap f = l.map (fun k => (f k).getD 0)
  | [], _, _ => rfl
  | x :: xs, f, h => by
      obtain ⟨v, hv⟩ := Option.isSome_iff_exists.mp (h x (List.mem_cons_self x xs))
      have ih := filterMap_eq_map_getD xs f (fun k hk => h k (List.mem_cons_of_mem _ hk))
      simp only [List.filterMap_cons, hv, List.map_cons, Option.getD_some]
      rw [ih]

/-- Reading `getD` through `map` for in-range indices. -/
theorem getD_map_q (f : ℕ → ℚ) : ∀ (l : List ℕ) (j : ℕ), j < l.length →
    (l.map f).getD j 0 = f (l.getD j 0)
  | [], j, h => absurd h (by simp)
  | _ :: _, 0, _ => rfl
  | x :: xs, j + 1, h => by
      simp only [List.map_cons, List.getD_cons_succ]
      exact getD_map_q f xs j (Nat.lt_of_succ_lt_succ h)

/-- Positional read of the sweep list: position j holds k = 2 + j. -/
theorem k_range_getD (n j : ℕ) (hj : j < (k_range n).length) :
    (k_range n).getD j 0 = 2 + j := by
  unfold k_range at hj ⊢
  rw [List.getD_eq_getElem _ _ hj]
  exact List.getElem_range'_1 j hj

/-- C3 counterexample: on a 5-row grid table where the fit at k = 2 yields
one distinct label (silhouette skipped) and k = 3, 4 score 1/2 and 3/10,
the code selects k = 2 — a k with no recorded silhouette at all — instead
of the silhouette-maximizing k = 3, because the argmax position in the
compacted score list is applied to the full k list. -/
theorem c3_counterexample :
    optimal_k 5 silSkipAtTwo = 2 ∧ selected_sil 5 silSkipAtTwo = none ∧
    silSkipAtTwo 3 = some (mkRat 1 2) ∧
    silhouette_list 5 silSkipAtTwo = [mkRat 1 2, mkRat 3 10] := by
  decide

/-- C3 (amended): the clusterer sweeps k ascending over
[2, max(2, min(10, n−1))] (the lower clamp to 2 is forced even when
min(10, n−1) < 2), records inertia for every k and a silhouette only when
the fit yields at least 2 distinct labels; when every swept k records a
silhouette, the selected k is the silhouette-maximizing one, ties broken
by first occurrence in the ascending sweep (every smaller swept k scores
strictly less). When some k are skipped, the selection can differ (see the
counterexample). -/
theorem c3_amended (n : ℕ) (sil : ℕ → Option ℚ)
    (hall : ∀ k, k ∈ k_range n → (sil k).isSome = true) :
    (∀ k, k ∈ k_range n ↔ 2 ≤ k ∧ k ≤ max 2 (min 10 (n - 1))) ∧
    ∃ v, sil (optimal_k n sil) = some v ∧ optimal_k n sil ∈ k_range n ∧
      (∀ k, k ∈ k_range n → ∀ w, sil k = some w → w ≤ v) ∧
      (∀ k, k ∈ k_range n → k < optimal_k n sil → ∀ w, sil k = some w → w < v) := by
  have hmk : 2 ≤ max_k n := by
    unfold max_k
    split <;> omega
  have hmkeq : max_k n = max 2 (min 10 (n - 1)) := by
    unfold max_k
    split <;> omega
  have hrange : ∀ k, k ∈ k_range n ↔ 2 ≤ k ∧ k ≤ max 2 (min 10 (n - 1)) := by
    intro k
    unfold k_range
    rw [List.mem_range'_1, ← hmkeq]
    omega
  refine ⟨hrange, ?_⟩
  have hkrlen : (k_range n).length = max_k n - 1 := List.length_range' ..
  have hkrne : k_range n ≠ [] := by
    intro hnil
    rw [hnil] at hkrlen
    simp at hkrlen
    omega
  set g : ℕ → ℚ := fun k => (sil k).getD 0 with hg
  have hfm : silhouette_list n sil = (k_range n).map g :=
    filterMap_eq_map_getD (k_range n) sil hall
  set l := (k_range n).map g with hl
  have hlne : l ≠ [] := by
    intro hnil
    exact hkrne (List.map_eq_nil_iff.mp hnil)
  have hmaxmem : listMax l ∈ l := listMax_mem l hlne
  obtain ⟨hidx_lt, hidx_val, hidx_first⟩ := indexOf_getD_spec l (listMax l) hmaxmem
  set i := l.indexOf (listMax l) with hi
  have hilen : i < (k_range n).length := by
    have := hidx_lt
    rw [hl, List.length_map] at this
    exact this
  have hopt : optimal_k n sil = (k_range n).getD i 0 := by
    unfold optimal_k argmaxIdx
    rw [hfm]
  have hopt_val : optimal_k n sil = 2 + i := by
    rw [hopt, k_range_getD n i hilen]
  have hkmem : optimal_k n sil ∈ k_range n := by
    rw [hopt, List.getD_eq_getElem _ _ hilen]
    exact List.getElem_mem hilen
  have hg_opt : g (optimal_k n sil) = listMax l := by
    rw [hopt, ← hidx_val, hl, getD_map_q g (k_range n) i hilen]
  have hsil_opt : sil (optimal_k n sil) = some (g (optimal_k n sil)) := by
    obtain ⟨v, hv⟩ := Option.isSome_iff_exists.mp (hall _ hkmem)
    rw [hv]
    simp [hg, hv]
  refine ⟨listMax l, ?_, hkmem, ?_, ?_⟩
  · rw [hsil_opt, hg_opt]
  · intro k hk w hw
    have hgk : g k = w := by simp [hg, hw]
    rw [← hgk]
    exact le_listMax l (g k) (List.mem_map_of_mem g hk)
  · intro k hk hklt w hw
    have hk2 : 2 ≤ k := ((hrange k).mp hk).1
    rw [hopt_val] at hklt
    set j := k - 2 with hj
    have hjlt_i : j < i := by omega
    have hjlen : j < (k_range n).length := by omega
    have hkd : (k_range n).getD j 0 = k := by
      rw [k_range_getD n j hjlen]
      omega
    have hne : l.getD j 0 ≠ listMax l := hidx_first j hjlt_i
    have hjlen2 : j < l.length := by
      rw [hl, List.length_map]
      exact hjlen
    have hle : l.getD j 0 ≤ listMax l := by
      apply le_listMax
      rw [List.getD_eq_getElem _ _ hjlen2]
      exact List.getElem_mem hjlen2
    have hgk : g k = w := by simp [hg, hw]
    have hlj : l.getD j 0 = g k := by
      rw [hl, getD_map_q g (k_range n) j hjlen, hkd]
    rw [← hgk, ← hlj]
    exact lt_of_le_of_ne hle hne

/-- C3 witness: a 5-row table with every swept k scoring silhouette 1 —
the selection lands in the sweep and satisfies the max/first-occurrence
properties. -/
theorem c3_witness :
    (∀ k, k ∈ k_range 5 ↔ 2 ≤ k ∧ k ≤ max 2 (min 10 (5 - 1))) ∧
    ∃ v, some (1 : ℚ) = some v ∧
      optimal_k 5 (fun _ => some (1 : ℚ)) ∈ k_range 5 ∧
      (∀ k, k ∈ k_range 5 → ∀ w, some (1 : ℚ) = some w → w ≤ v) ∧
      (∀ k, k ∈ k_range 5 → k < optimal_k 5 (fun _ => some (1 : ℚ)) →
        ∀ w, some (1 : ℚ) = some w → w < v) :=
  c3_amended 5 (fun _ => some (1 : ℚ)) (fun _ _ => rfl)

/-! ### C4: unmapped ordinal values and supervised-training rows -/

/-- Helper: the `target_severity` column of the ML table is the severity
ordinal map applied to each record's severity level (the target copy is
taken from the raw column, not from the median-imputed feature copy). -/
theorem target_severity_col_engineer (rows : List CrimeRecord) :
    target_severity_col (engineer_features rows) =
      rows.map (fun r => severity_map r.severity_level) := by
  simp only [target_severity_col, engineer_features, List.map_map]
  rfl

/-- C4: an out-of-map severity level produces a missing severity score
(not a coerced number), the missing value propagates into the
`target_severity` column of the ML table — and the trainer's supervised
row selection does NOT exclude it: `train_severity_prediction_model` takes
the whole target column as `y`, so the row with the missing target is
passed to the regressor fit (which then raises on a NaN target) instead of
being dropped as the claim requires. -/
theorem c4_unmapped_target_not_excluded :
    severity_map "Unknown" = none ∧
    target_severity_col (engineer_features [recMinor, recUnknownSeverity]) =
      [some 1, none] ∧
    severity_fit_targets
        (target_severity_col (engineer_features [recMinor, recUnknownSeverity])) =
      [some 1, none] := by
  have h := target_severity_col_engineer [recMinor, recUnknownSeverity]
  refine ⟨by decide, ?_, ?_⟩
  · rw [h]
    decide
  · rw [severity_fit_targets, h]
    decide

end CrimeAnalytics
